import Mathlib

/-!
Verification of the line-oriented JSON-RPC tool server in
src/examples/python/server.py.

The embedding models one iteration of the server loop as a pure function
from an input line to the list of response values written to stdout for
that line (always zero or one). Python exceptions raised while handling a
message are modelled with the Except monad; the catch-all in
handle_message maps any escaped exception to an empty output (the real
code only logs to stderr there). Python dict/attribute semantics
(dict.get with default, item access raising KeyError, attribute access on
non-dicts raising AttributeError) are modelled explicitly.
-/

/-- JSON values as produced by json.loads. JSON null and Python None are
both represented by the null constructor, matching the fact that
json.loads maps JSON null to Python None and the server compares and
formats them interchangeably. Numbers are modelled as integers; the
parser below rejects number syntax it does not model (fractions and
exponents), so it accepts only lines Python would also accept. -/
inductive Json where
  | null : Json
  | bool : Bool → Json
  | num : Int → Json
  | str : String → Json
  | arr : List Json → Json
  | obj : List (String × Json) → Json

/-- Exceptions that the handler code can raise, with the payload that
str(e) renders. -/
inductive PyErr where
  | keyError : String → PyErr
  | attributeError : String → PyErr
  | typeError : String → PyErr
  | syntaxError : String → PyErr

/-- Python str(e) for the modelled exceptions: str of a KeyError is the
missing key wrapped in single quotes, the others render their message. -/
def PyErr.toMessage : PyErr → String
  | PyErr.keyError k => "\x27" ++ k ++ "\x27"
  | PyErr.attributeError m => m
  | PyErr.typeError m => m
  | PyErr.syntaxError m => m

/-- Python type name of a JSON value, as it appears in error messages. -/
def Json.typeName : Json → String
  | Json.null => "NoneType"
  | Json.bool _ => "bool"
  | Json.num _ => "int"
  | Json.str _ => "str"
  | Json.arr _ => "list"
  | Json.obj _ => "dict"

/-- First-match association lookup used for Python dict reads; the parser
below never produces duplicate keys, mirroring Python dicts. -/
def jlookup : List (String × Json) → String → Option Json
  | [], _ => none
  | (k, v) :: rest, key => if k = key then some v else jlookup rest key

/-- Python dict.get(key, default): returns the default when the key is
absent, raises AttributeError when the receiver is not a dict. -/
def Json.get (m : Json) (key : String) (dflt : Json) : Except PyErr Json :=
  match m with
  | Json.obj fields => Except.ok ((jlookup fields key).getD dflt)
  | v => Except.error (PyErr.attributeError
      ("\x27" ++ v.typeName ++ "\x27 object has no attribute \x27get\x27"))

/-- Python dict item access m[key]: raises KeyError when the key is
absent and TypeError when the receiver is not a dict. -/
def Json.item (m : Json) (key : String) : Except PyErr Json :=
  match m with
  | Json.obj fields =>
    match jlookup fields key with
    | some v => Except.ok v
    | none => Except.error (PyErr.keyError key)
  | v => Except.error (PyErr.typeError
      ("\x27" ++ v.typeName ++ "\x27 object is not subscriptable"))

/-- Python equality test of a JSON value against a string literal, as in
the dispatch conditions of handle_message and handle_tool_call. -/
def Json.eqStr : Json → String → Bool
  | Json.str s, t => s == t
  | _, _ => false

/-- True exactly on dict values. -/
def Json.isObj : Json → Bool
  | Json.obj _ => true
  | _ => false

/-- Python repr rendering with a depth fuel so that the recursion through
list elements is structural; the fuel is instantiated with the size of
the value, which always suffices. -/
def pyReprF : Nat → Json → String
  | _, Json.null => "None"
  | _, Json.bool b => cond b "True" "False"
  | _, Json.num n => toString n
  | _, Json.str s => "\x27" ++ s ++ "\x27"
  | 0, _ => ""
  | fuel + 1, Json.arr xs =>
      "[" ++ String.intercalate ", " (xs.map (pyReprF fuel)) ++ "]"
  | fuel + 1, Json.obj fs =>
      "\x7b" ++ String.intercalate ", "
        (fs.map (fun kv => "\x27" ++ kv.1 ++ "\x27: " ++ pyReprF fuel kv.2)) ++ "\x7d"

/-- Python str() of a value, as used by f-string interpolation in the
server: strings render without quotes, everything else as repr. The fixed
fuel exceeds any nesting depth a single input line could produce, so the
fuel-exhausted arm of pyReprF is unreachable in practice. -/
def py_str : Json → String
  | Json.str s => s
  | v => pyReprF 1000000 v

/-- Whitespace skipping of the JSON lexer. -/
def skipWs : List Char → List Char
  | [] => []
  | c :: cs =>
    if c = ' ' || c = '\t' || c = '\n' || c = '\r' then skipWs cs else c :: cs

/-- Body of a JSON string literal after the opening quote; supports the
simple escapes and rejects raw control characters, unmodelled escapes
included, so nothing is accepted that Python json.loads would reject. -/
def parseStringBody (acc : List Char) : List Char → Option (String × List Char)
  | [] => none
  | c :: cs =>
    if c = '"' then some (String.mk acc.reverse, cs)
    else if c = '\\' then
      match cs with
      | [] => none
      | e :: cs2 =>
        if e = '"' then parseStringBody ('"' :: acc) cs2
        else if e = '\\' then parseStringBody ('\\' :: acc) cs2
        else if e = '/' then parseStringBody ('/' :: acc) cs2
        else if e = 'n' then parseStringBody ('\n' :: acc) cs2
        else if e = 't' then parseStringBody ('\t' :: acc) cs2
        else if e = 'r' then parseStringBody ('\r' :: acc) cs2
        else none
    else if c.toNat < 32 then none
    else parseStringBody (c :: acc) cs

/-- Longest digit prefix of the input. -/
def takeDigits : List Char → List Char × List Char
  | [] => ([], [])
  | c :: cs =>
    if c.isDigit then
      match takeDigits cs with
      | (ds, r) => (c :: ds, r)
    else ([], c :: cs)

/-- Numeric value of a digit list. -/
def digitsVal : List Char → Nat → Nat
  | [], acc => acc
  | c :: cs, acc => digitsVal cs (acc * 10 + (c.toNat - 48))

/-- Integer literal after an optional minus sign; rejects leading zeros
and any fraction or exponent continuation (the model is strictly stricter
than Python json.loads, never looser). -/
def parseNatNumber (cs : List Char) : Option (Nat × List Char) :=
  match takeDigits cs with
  | ([], _) => none
  | (ds, r) =>
    let bad : Bool :=
      match r with
      | c :: _ => c = '.' || c = 'e' || c = 'E'
      | [] => false
    if bad then none
    else
      match ds with
      | '0' :: _ :: _ => none
      | _ => some (digitsVal ds 0, r)

/-- Number literal with optional leading minus. -/
def parseNumber (cs : List Char) : Option (Json × List Char) :=
  match cs with
  | '-' :: rest =>
    (parseNatNumber rest).map (fun p => (Json.num (-(p.1 : Int)), p.2))
  | _ =>
    (parseNatNumber cs).map (fun p => (Json.num (p.1 : Int), p.2))

/-- Replace the value at the first occurrence of a key, or append. -/
def dictUpdate : List (String × Json) → String → Json → List (String × Json)
  | [], k, v => [(k, v)]
  | (k0, v0) :: rest, k, v =>
    if k0 = k then (k0, v) :: rest else (k0, v0) :: dictUpdate rest k v

/-- Python dict construction semantics for duplicate keys: first
occurrence keeps its position, last occurrence wins the value. -/
def dictNorm (pairs : List (String × Json)) : List (String × Json) :=
  pairs.foldl (fun acc kv => dictUpdate acc kv.1 kv.2) []

/-- Recursive-descent JSON value parser with a structural fuel; every
recursive call strictly shortens the input, so fuel of input length plus
two always suffices. Arrays and objects parse one element and then
re-enter the parser on the remaining elements with the opening bracket
re-prepended. -/
def parseVal : Nat → List Char → Option (Json × List Char)
  | 0, _ => none
  | fuel + 1, input =>
    match skipWs input with
    | [] => none
    | c :: cs =>
      if c = 'n' then
        match cs with
        | 'u' :: 'l' :: 'l' :: rest => some (Json.null, rest)
        | _ => none
      else if c = 't' then
        match cs with
        | 'r' :: 'u' :: 'e' :: rest => some (Json.bool true, rest)
        | _ => none
      else if c = 'f' then
        match cs with
        | 'a' :: 'l' :: 's' :: 'e' :: rest => some (Json.bool false, rest)
        | _ => none
      else if c = '"' then
        (parseStringBody [] cs).map (fun p => (Json.str p.1, p.2))
      else if c = '[' then
        match skipWs cs with
        | ']' :: rest => some (Json.arr [], rest)
        | cs1 =>
          match parseVal fuel cs1 with
          | none => none
          | some (v, r1) =>
            match skipWs r1 with
            | ',' :: r2 =>
              match parseVal fuel ('[' :: r2) with
              | some (Json.arr vs, r3) => some (Json.arr (v :: vs), r3)
              | _ => none
            | ']' :: r2 => some (Json.arr [v], r2)
            | _ => none
      else if c = Char.ofNat 123 then
        match skipWs cs with
        | cs1 =>
          if cs1.head? = some (Char.ofNat 125) then
            some (Json.obj [], cs1.tail)
          else
            match cs1 with
            | '"' :: kcs =>
              match parseStringBody [] kcs with
              | none => none
              | some (k, r1) =>
                match skipWs r1 with
                | ':' :: r2 =>
                  match parseVal fuel r2 with
                  | none => none
                  | some (v, r3) =>
                    match skipWs r3 with
                    | ',' :: r4 =>
                      match parseVal fuel (Char.ofNat 123 :: r4) with
                      | some (Json.obj fs, r5) =>
                        some (Json.obj (dictNorm ((k, v) :: fs)), r5)
                      | _ => none
                    | rest =>
                      if rest.head? = some (Char.ofNat 125) then
                        some (Json.obj [(k, v)], rest.tail)
                      else none
                | _ => none
            | _ => none
      else if c = '-' || c.isDigit then
        parseNumber (c :: cs)
      else none

/-- Model of Python json.loads on one input line: parse one JSON value
and require only whitespace to remain. The strip applied by the source
before parsing is absorbed here, since surrounding whitespace is skipped
by the parser and the trailing check. -/
def json_loads (line : String) : Option Json :=
  match parseVal (line.length + 2) line.data with
  | some (v, rest) => if skipWs rest = [] then some v else none
  | none => none

/-- Static server identity returned during the handshake, from the
SERVER_INFO constant of the source. -/
def SERVER_INFO : Json :=
  Json.obj [("name", Json.str "python-example-server"),
    ("version", Json.str "1.0.0")]

/-- The static tool registry, from the TOOLS constant of the source:
two descriptors in definition order, each with name, description and
inputSchema. -/
def TOOLS : Json :=
  Json.arr [
    Json.obj [
      ("name", Json.str "calculate"),
      ("description", Json.str
        "Perform basic mathematical calculations - try changing this description!"),
      ("inputSchema", Json.obj [
        ("type", Json.str "object"),
        ("properties", Json.obj [
          ("expression", Json.obj [
            ("type", Json.str "string"),
            ("description", Json.str
              "Mathematical expression to evaluate (e.g., \x272 + 2\x27)")])]),
        ("required", Json.arr [Json.str "expression"])])],
    Json.obj [
      ("name", Json.str "reverse_string"),
      ("description", Json.str "Reverse a given string"),
      ("inputSchema", Json.obj [
        ("type", Json.str "object"),
        ("properties", Json.obj [
          ("text", Json.obj [
            ("type", Json.str "string"),
            ("description", Json.str "Text to reverse")])]),
        ("required", Json.arr [Json.str "text"])])]]

/-- Parsing level of the arithmetic expression grammar used to model the
builtin eval: additive expressions, multiplicative terms, atomic
factors, and the two accumulator-carrying tail states that give the
operators left associativity. -/
inductive ALevel where
  | expr : ALevel
  | exprTail : Int → ALevel
  | term : ALevel
  | termTail : Int → ALevel
  | factor : ALevel

/-- Fueled recursive-descent evaluator for integer arithmetic with
plus, minus, times, unary minus and parentheses; every recursive call
consumes fuel, and the fuel chosen by py_eval always suffices for the
input length. -/
def arithP : Nat → ALevel → List Char → Option (Int × List Char)
  | 0, _, _ => none
  | fuel + 1, ALevel.expr, cs =>
    match arithP fuel ALevel.term cs with
    | some (v, r) => arithP fuel (ALevel.exprTail v) r
    | none => none
  | fuel + 1, ALevel.exprTail acc, cs =>
    match skipWs cs with
    | '+' :: r =>
      match arithP fuel ALevel.term r with
      | some (v, r2) => arithP fuel (ALevel.exprTail (acc + v)) r2
      | none => none
    | '-' :: r =>
      match arithP fuel ALevel.term r with
      | some (v, r2) => arithP fuel (ALevel.exprTail (acc - v)) r2
      | none => none
    | rest => some (acc, rest)
  | fuel + 1, ALevel.term, cs =>
    match arithP fuel ALevel.factor cs with
    | some (v, r) => arithP fuel (ALevel.termTail v) r
    | none => none
  | fuel + 1, ALevel.termTail acc, cs =>
    match skipWs cs with
    | '*' :: r =>
      match arithP fuel ALevel.factor r with
      | some (v, r2) => arithP fuel (ALevel.termTail (acc * v)) r2
      | none => none
    | rest => some (acc, rest)
  | fuel + 1, ALevel.factor, cs =>
    match skipWs cs with
    | '(' :: r =>
      match arithP fuel ALevel.expr r with
      | some (v, r2) =>
        match skipWs r2 with
        | ')' :: r3 => some (v, r3)
        | _ => none
      | none => none
    | '-' :: r =>
      match arithP fuel ALevel.factor r with
      | some (v, r2) => some (-v, r2)
      | none => none
    | rest =>
      match parseNatNumber rest with
      | some (n, r2) => some ((n : Int), r2)
      | none => none

/-- Model of the Python builtin eval as applied by the calculate tool
body. The spec treats tool bodies as out-of-scope example payloads, so
this models only what the claims need: evaluating a string as integer
arithmetic, raising SyntaxError on anything the grammar does not cover
(message collapsed to a single description), and raising TypeError when
the argument is not a string, exactly as eval does. -/
def py_eval (expression : Json) : Except PyErr Json :=
  match expression with
  | Json.str s =>
    match arithP (4 * s.length + 16) ALevel.expr s.data with
    | some (v, rest) =>
      if skipWs rest = [] then Except.ok (Json.num v)
      else Except.error (PyErr.syntaxError "invalid syntax")
    | none => Except.error (PyErr.syntaxError "invalid syntax")
  | v => Except.error (PyErr.typeError
      ("eval() arg 1 must be a string, bytes or code object, not "
        ++ v.typeName))

/-- Python slicing text[::-1] as used by the reverse_string body:
reverses strings and lists, raises TypeError on values that do not
support slicing. -/
def py_slice_reverse : Json → Except PyErr Json
  | Json.str s => Except.ok (Json.str (String.mk s.data.reverse))
  | Json.arr xs => Except.ok (Json.arr xs.reverse)
  | v => Except.error (PyErr.typeError
      ("\x27" ++ v.typeName ++ "\x27 object is not subscriptable"))

/-- Response envelope of the success dict literals built by the tool
handlers: jsonrpc, id, and a result holding one text content item. -/
def mkResultText (idv : Json) (text : String) : Json :=
  Json.obj [("jsonrpc", Json.str "2.0"), ("id", idv),
    ("result", Json.obj [("content", Json.arr [
      Json.obj [("type", Json.str "text"), ("text", Json.str text)]])])]

/-- Response envelope of the error dict literals built by the handlers:
jsonrpc, id, and an error holding code and message. -/
def mkError (idv : Json) (code : Int) (msg : String) : Json :=
  Json.obj [("jsonrpc", Json.str "2.0"), ("id", idv),
    ("error", Json.obj [("code", Json.num code),
      ("message", Json.str msg)])]

/-- Source line 65 and following: the initialize handler reads the id
with item access (KeyError when absent) and returns the handshake
result. -/
def handle_initialize (message : Json) : Except PyErr Json := do
  let idv ← Json.item message "id"
  pure (Json.obj [("jsonrpc", Json.str "2.0"), ("id", idv),
    ("result", Json.obj [
      ("protocolVersion", Json.str "2024-11-05"),
      ("capabilities", Json.obj [("tools", Json.obj [])]),
      ("serverInfo", SERVER_INFO)])])

/-- Source line 76 and following: the tools/list handler reads the id
with item access and returns the static registry. -/
def handle_tools_list (message : Json) : Except PyErr Json := do
  let idv ← Json.item message "id"
  pure (Json.obj [("jsonrpc", Json.str "2.0"), ("id", idv),
    ("result", Json.obj [("tools", TOOLS)])])

/-- Source line 89: tool_name is read leniently from params with get
defaults, so an absent params acts as an empty dict and an absent name
becomes None; a non-dict params raises AttributeError. -/
def toolCallName (message : Json) : Except PyErr Json := do
  let params ← Json.get message "params" (Json.obj [])
  Json.get params "name" Json.null

/-- Source line 90: arguments is read leniently from params, defaulting
to an empty dict. -/
def toolCallArguments (message : Json) : Except PyErr Json := do
  let params ← Json.get message "params" (Json.obj [])
  Json.get params "arguments" (Json.obj [])

/-- Source lines 93 to 106: the body of the try block of the calculate
branch, up to and including construction of the success response; any
step may raise, and the raise is caught by the except clause in
handle_tool_call. -/
def calcTry (message arguments : Json) : Except PyErr Json := do
  let expression ← Json.get arguments "expression" (Json.str "")
  let result ← py_eval expression
  let idv ← Json.item message "id"
  pure (mkResultText idv
    ("Result: " ++ py_str expression ++ " = " ++ py_str result))

/-- Source lines 87 to 141: the tools/call handler. The calculate branch
wraps its body in try/except and converts any fault into a code -32000
error response (the except clause itself reads the id with item access,
so a missing id re-raises there). The reverse_string branch has no local
try, so faults in it propagate to the caller. The final branch reports
an unknown tool with code -32601. -/
def handle_tool_call (message : Json) : Except PyErr Json := do
  let tool_name ← toolCallName message
  let arguments ← toolCallArguments message
  if Json.eqStr tool_name "calculate" then
    match calcTry message arguments with
    | Except.ok r => pure r
    | Except.error e => do
      let idv ← Json.item message "id"
      pure (mkError idv (-32000) ("Calculation error: " ++ e.toMessage))
  else if Json.eqStr tool_name "reverse_string" then do
    let text ← Json.get arguments "text" (Json.str "")
    let reversed_text ← py_slice_reverse text
    let idv ← Json.item message "id"
    pure (mkResultText idv
      ("Original: \x27" ++ py_str text ++ "\x27 -> Reversed: \x27"
        ++ py_str reversed_text ++ "\x27"))
  else do
    let idv ← Json.item message "id"
    pure (mkError idv (-32601) ("Unknown tool: " ++ py_str tool_name))

/-- Source lines 148 to 164: the dispatch chain inside handle_message.
The source re-reads message.get with identical results at each elif, so
the method value is bound once here; the unknown-method branch reads the
id leniently, defaulting to None. -/
def route (message : Json) : Except PyErr Json := do
  let method ← Json.get message "method" Json.null
  if Json.eqStr method "initialize" then handle_initialize message
  else if Json.eqStr method "tools/list" then handle_tools_list message
  else if Json.eqStr method "tools/call" then handle_tool_call message
  else do
    let idv ← Json.get message "id" Json.null
    pure (mkError idv (-32601) ("Method not found: " ++ py_str method))

/-- Source lines 143 to 169: one call of handle_message, returning the
list of response values the call writes to stdout. A JSONDecodeError
and any other exception are both caught, only logged to stderr, and
produce no output line. -/
def handle_message (line : String) : List Json :=
  match json_loads line with
  | none => []
  | some message =>
    match route message with
    | Except.ok r => [r]
    | Except.error _ => []

/-- Source line 189: the truthiness test of line.strip, true exactly
when the line contains a non-whitespace character. -/
def blankLine (line : String) : Bool :=
  skipWs line.data = []

/-- Source lines 188 to 190: the main loop over the input lines, with
blank lines skipped before handle_message runs; the concatenation of the
per-line outputs is the full stdout transcript of a run. -/
def main_loop : List String → List Json
  | [] => []
  | line :: rest =>
    (if blankLine line then [] else handle_message line) ++ main_loop rest

/-- Name field of a tool descriptor, as observed by clients. -/
def descName : Json → Json
  | Json.obj fs => (jlookup fs "name").getD Json.null
  | _ => Json.null

/-- Ordered list of tool names of a registry value. -/
def toolNames : Json → List Json
  | Json.arr ds => ds.map descName
  | _ => []

/-- The required property list that the registry declares for a tool,
read from its inputSchema; the server never consults this value when
dispatching a call. -/
def declaredRequired (tname : String) : Option Json :=
  match TOOLS with
  | Json.arr ds =>
    match ds.find? (fun d => Json.eqStr (descName d) tname) with
    | some (Json.obj fs) =>
      match jlookup fs "inputSchema" with
      | some (Json.obj sfs) => jlookup sfs "required"
      | _ => none
    | _ => none
  | _ => none

/-- A well-formed tools/call request value with the given id, tool name
and arguments object, as a client would send it. -/
def mkToolCall (idv : Json) (tname : String) (args : Json) : Json :=
  Json.obj [("jsonrpc", Json.str "2.0"), ("id", idv),
    ("method", Json.str "tools/call"),
    ("params", Json.obj [("name", Json.str tname), ("arguments", args)])]

example : json_loads "17" = some (Json.num 17) := by rfl
example : json_loads "" = none := by rfl
example : json_loads "\x7b\"a\": [1, -2], \"b\": \"x\"\x7d"
    = some (Json.obj [("a", Json.arr [Json.num 1, Json.num (-2)]),
        ("b", Json.str "x")]) := by rfl
example : json_loads "nope" = none := by rfl
example : py_eval (Json.str "2 + 2") = Except.ok (Json.num 4) := by rfl
example : py_eval (Json.str "1 - 2 + 3") = Except.ok (Json.num 2) := by rfl
example : py_eval (Json.str "2 + 3 * (4 - 1)") = Except.ok (Json.num 11) := by rfl
example : py_eval (Json.str "(")
    = Except.error (PyErr.syntaxError "invalid syntax") := by rfl
example : py_eval (Json.str "")
    = Except.error (PyErr.syntaxError "invalid syntax") := by rfl
example : py_eval (Json.num 5)
    = Except.error (PyErr.typeError
        "eval() arg 1 must be a string, bytes or code object, not int") := by rfl

/-- Bind on an ok value reduces to the continuation. -/
theorem pb_ok (a : Json) (f : Json → Except PyErr Json) :
    (Except.ok a : Except PyErr Json) >>= f = f a := rfl

/-- Bind on a raised exception propagates the exception. -/
theorem pb_error (e : PyErr) (f : Json → Except PyErr Json) :
    (Except.error e : Except PyErr Json) >>= f = Except.error e := rfl

/-- Lenient get on a dict value reduces to a lookup with default. -/
theorem get_obj (fields : List (String × Json)) (k : String) (d : Json) :
    Json.get (Json.obj fields) k d = Except.ok ((jlookup fields k).getD d) := rfl

/-- Item access on a dict containing the key returns its value. -/
theorem item_some (fields : List (String × Json)) (k : String) (v : Json)
    (h : jlookup fields k = some v) :
    Json.item (Json.obj fields) k = Except.ok v := by
  simp [Json.item, h]

/-- Item access on a dict missing the key raises KeyError. -/
theorem item_none (fields : List (String × Json)) (k : String)
    (h : jlookup fields k = none) :
    Json.item (Json.obj fields) k = Except.error (PyErr.keyError k) := by
  simp [Json.item, h]

/-- Unfolding equation of the main loop on a non-empty input. -/
theorem main_loop_cons (line : String) (rest : List String) :
    main_loop (line :: rest)
      = (if blankLine line then [] else handle_message line) ++ main_loop rest := rfl

/-- Claim C4 (confirmed): the scenario line calling reverse_string on
the text abc yields exactly the success line of the claim, a result with
one content item of kind text; the second conjunct checks that the JSON
text of the expected output line denotes that same response value. -/
theorem C4_reverse_scenario :
    handle_message "\x7b\"jsonrpc\":\"2.0\",\"id\":1,\"method\":\"tools/call\",\"params\":\x7b\"name\":\"reverse_string\",\"arguments\":\x7b\"text\":\"abc\"\x7d\x7d\x7d"
      = [Json.obj [("jsonrpc", Json.str "2.0"), ("id", Json.num 1),
          ("result", Json.obj [("content", Json.arr [
            Json.obj [("type", Json.str "text"),
              ("text", Json.str
                "Original: \x27abc\x27 -> Reversed: \x27cba\x27")]])])]]
    ∧ json_loads "\x7b\"jsonrpc\":\"2.0\",\"id\":1,\"result\":\x7b\"content\":[\x7b\"type\":\"text\",\"text\":\"Original: \x27abc\x27 -> Reversed: \x27cba\x27\"\x7d]\x7d\x7d"
      = some (Json.obj [("jsonrpc", Json.str "2.0"), ("id", Json.num 1),
          ("result", Json.obj [("content", Json.arr [
            Json.obj [("type", Json.str "text"),
              ("text", Json.str
                "Original: \x27abc\x27 -> Reversed: \x27cba\x27")]])])]) := by
  exact ⟨rfl, rfl⟩

/-- Claim C10 (confirmed): a line that parses as JSON but not as an
object gets no response: the first dict read raises AttributeError,
the catch-all logs it, and the loop output for the remaining lines is
unchanged. -/
theorem C10_nonobject_line (line : String) (rest : List String) (v : Json)
    (hparse : json_loads line = some v) (hobj : v.isObj = false) :
    route v = Except.error (PyErr.attributeError
        ("\x27" ++ v.typeName ++ "\x27 object has no attribute \x27get\x27"))
    ∧ handle_message line = []
    ∧ main_loop (line :: rest) = main_loop rest := by
  have hroute : route v = Except.error (PyErr.attributeError
      ("\x27" ++ v.typeName ++ "\x27 object has no attribute \x27get\x27")) := by
    cases v with
    | obj fields => simp [Json.isObj] at hobj
    | null => rfl
    | bool b => rfl
    | num n => rfl
    | str s => rfl
    | arr xs => rfl
  have hmsg : handle_message line = [] := by
    simp only [handle_message, hparse, hroute]
  refine ⟨hroute, hmsg, ?_⟩
  rw [main_loop_cons, hmsg]
  cases blankLine line <;> simp

/-- Witness for C10 at the concrete line 17, a JSON number: evaluating
the model shows no response is emitted and the next line of the loop is
unaffected. -/
theorem C10_nonobject_line_witness :
    route (Json.num 17) = Except.error (PyErr.attributeError
        "\x27int\x27 object has no attribute \x27get\x27")
    ∧ handle_message "17" = []
    ∧ main_loop ["17"] = main_loop [] :=
  C10_nonobject_line "17" [] (Json.num 17) rfl rfl

/-- Claim C3 (confirmed): for an object request whose method value is
none of the three routed methods, including an absent method read as
None, the response is an error with code -32601 whose message renders
that method value, carrying the requests id read leniently with null
as the default. -/
theorem C3_method_not_found (fields : List (String × Json))
    (h1 : Json.eqStr ((jlookup fields "method").getD Json.null) "initialize" = false)
    (h2 : Json.eqStr ((jlookup fields "method").getD Json.null) "tools/list" = false)
    (h3 : Json.eqStr ((jlookup fields "method").getD Json.null) "tools/call" = false) :
    route (Json.obj fields)
      = Except.ok (mkError ((jlookup fields "id").getD Json.null) (-32601)
          ("Method not found: "
            ++ py_str ((jlookup fields "method").getD Json.null))) := by
  unfold route
  rw [get_obj, pb_ok, h1, h2, h3]
  simp [get_obj, pb_ok]

/-- Witness for C3 at a request with id 3 and no method field at all:
the absent method is rendered as None and the id is echoed. -/
theorem C3_method_not_found_witness :
    route (Json.obj [("id", Json.num 3)])
      = Except.ok (mkError (Json.num 3) (-32601) "Method not found: None") :=
  C3_method_not_found [("id", Json.num 3)] rfl rfl rfl

/-- Counterexample to claim C1 as stated: the line below parses as valid
JSON, yet the server emits no response line for it, because the parsed
value is a list and the first dict read raises AttributeError. -/
theorem C1_counterexample :
    json_loads "[1, 2]" = some (Json.arr [Json.num 1, Json.num 2])
    ∧ handle_message "[1, 2]" = [] := by
  exact ⟨rfl, rfl⟩

/-- Claim C1 (corrected): every input line yields zero or one response
line; an unparsable line yields zero; a line whose parsed value routes
to a response yields exactly that one response; a line whose handling
raises an internal exception, for example a non-object value or a routed
handler reading a missing id, yields zero; and a line that yields zero
leaves the output of the rest of the loop unchanged, so a subsequent
valid request still receives its response. -/
theorem C1_response_count (line : String) (rest : List String) :
    (handle_message line).length ≤ 1
    ∧ (json_loads line = none → handle_message line = [])
    ∧ (∀ m r, json_loads line = some m → route m = Except.ok r →
        handle_message line = [r])
    ∧ (∀ m e, json_loads line = some m → route m = Except.error e →
        handle_message line = [])
    ∧ (handle_message line = [] → main_loop (line :: rest) = main_loop rest) := by
  refine ⟨?_, ?_, ?_, ?_, ?_⟩
  · simp only [handle_message]
    cases hj : json_loads line with
    | none => simp
    | some m =>
      cases hr : route m with
      | ok r => simp [hr]
      | error e => simp [hr]
  · intro h
    simp only [handle_message, h]
  · intro m r hm hr
    simp only [handle_message, hm, hr]
  · intro m e hm hr
    simp only [handle_message, hm, hr]
  · intro h
    rw [main_loop_cons, h]
    cases blankLine line <;> simp

/-- Witness for C1 at two concrete lines: an unparsable line emits
nothing and does not disturb the loop, and a following well-formed
request is answered with exactly one response. -/
theorem C1_response_count_witness :
    (handle_message "nope").length ≤ 1
    ∧ handle_message "nope" = []
    ∧ handle_message "\x7b\"id\": 3, \"method\": \"x\"\x7d"
        = [mkError (Json.num 3) (-32601) "Method not found: x"]
    ∧ main_loop ["nope", "\x7b\"id\": 3, \"method\": \"x\"\x7d"]
        = main_loop ["\x7b\"id\": 3, \"method\": \"x\"\x7d"] := by
  have h1 := C1_response_count "nope" ["\x7b\"id\": 3, \"method\": \"x\"\x7d"]
  have h2 := C1_response_count "\x7b\"id\": 3, \"method\": \"x\"\x7d" []
  exact ⟨h1.1, h1.2.1 rfl,
    h2.2.2.1 (Json.obj [("id", Json.num 3), ("method", Json.str "x")])
      (mkError (Json.num 3) (-32601) "Method not found: x") rfl rfl,
    h1.2.2.2.2 (h1.2.1 rfl)⟩

/-- Counterexample to claim C5 as stated: an initialize request with no
id field at all is a valid request under the lenient decode the spec
describes, yet the handler reads the id with item access, the KeyError
escapes to the catch-all, and no response is emitted. -/
theorem C5_counterexample :
    route (Json.obj [("method", Json.str "initialize")])
      = Except.error (PyErr.keyError "id")
    ∧ handle_message "\x7b\"method\": \"initialize\"\x7d" = [] := by
  exact ⟨rfl, rfl⟩

/-- Claim C5 (corrected): for every initialize request whose id field is
present, with any value including null, the response is a success whose
result carries the protocol version string, capabilities tools as an
empty object, and serverInfo equal to the static configured pair, with
the id echoed exactly; an initialize request with no id field raises
KeyError and gets no response. -/
theorem C5_handshake (fields : List (String × Json)) (idv : Json)
    (hmethod : jlookup fields "method" = some (Json.str "initialize")) :
    (jlookup fields "id" = some idv →
      route (Json.obj fields)
        = Except.ok (Json.obj [("jsonrpc", Json.str "2.0"), ("id", idv),
            ("result", Json.obj [
              ("protocolVersion", Json.str "2024-11-05"),
              ("capabilities", Json.obj [("tools", Json.obj [])]),
              ("serverInfo", SERVER_INFO)])]))
    ∧ (jlookup fields "id" = none →
        route (Json.obj fields) = Except.error (PyErr.keyError "id")) := by
  constructor
  · intro hid
    unfold route
    rw [get_obj, pb_ok, hmethod]
    simp only [Option.getD, Json.eqStr, beq_self_eq_true, if_true]
    unfold handle_initialize
    rw [item_some fields "id" idv hid, pb_ok]
    rfl
  · intro hid
    unfold route
    rw [get_obj, pb_ok, hmethod]
    simp only [Option.getD, Json.eqStr, beq_self_eq_true, if_true]
    unfold handle_initialize
    rw [item_none fields "id" hid, pb_error]

/-- Witness for C5 at an initialize request carrying an explicit null
id: the null is echoed in the handshake response. -/
theorem C5_handshake_witness :
    route (Json.obj [("id", Json.null), ("method", Json.str "initialize")])
      = Except.ok (Json.obj [("jsonrpc", Json.str "2.0"), ("id", Json.null),
          ("result", Json.obj [
            ("protocolVersion", Json.str "2024-11-05"),
            ("capabilities", Json.obj [("tools", Json.obj [])]),
            ("serverInfo", SERVER_INFO)])]) :=
  (C5_handshake [("id", Json.null), ("method", Json.str "initialize")]
    Json.null rfl).1 rfl

/-- When the lenient tool-name read succeeds, the params value was a
dict (present or defaulted), so the lenient arguments read succeeds as
well. -/
theorem toolCallArguments_ok (fields : List (String × Json)) (t : Json)
    (h : toolCallName (Json.obj fields) = Except.ok t) :
    ∃ a, toolCallArguments (Json.obj fields) = Except.ok a := by
  unfold toolCallName at h
  unfold toolCallArguments
  rw [get_obj, pb_ok] at h
  rw [get_obj, pb_ok]
  cases hp : (jlookup fields "params").getD (Json.obj []) with
  | obj pf =>
    exact ⟨(jlookup pf "arguments").getD (Json.obj []),
      get_obj pf "arguments" (Json.obj [])⟩
  | null => rw [hp] at h; simp [Json.get] at h
  | bool b => rw [hp] at h; simp [Json.get] at h
  | num n => rw [hp] at h; simp [Json.get] at h
  | str s => rw [hp] at h; simp [Json.get] at h
  | arr xs => rw [hp] at h; simp [Json.get] at h

/-- Counterexample to claim C8 as stated: a tools/list request with no
id field gets no response at all, because the handler reads the id with
item access and the KeyError escapes to the catch-all. -/
theorem C8_counterexample :
    route (Json.obj [("jsonrpc", Json.str "2.0"), ("method", Json.str "tools/list")])
      = Except.error (PyErr.keyError "id")
    ∧ handle_message "\x7b\"jsonrpc\": \"2.0\", \"method\": \"tools/list\"\x7d" = [] := by
  exact ⟨rfl, rfl⟩

/-- Claim C8 (corrected): every tools/list request carrying an id
returns a success result holding the full static descriptor sequence
TOOLS in definition order; two such requests in the same run receive
results carrying the identical registry value, whose ordered name list
is calculate then reverse_string; a tools/list request with no id field
gets no response. -/
theorem C8_tools_list (fields fields2 : List (String × Json)) (idv idv2 : Json)
    (hm1 : jlookup fields "method" = some (Json.str "tools/list"))
    (hid1 : jlookup fields "id" = some idv)
    (hm2 : jlookup fields2 "method" = some (Json.str "tools/list"))
    (hid2 : jlookup fields2 "id" = some idv2) :
    route (Json.obj fields)
      = Except.ok (Json.obj [("jsonrpc", Json.str "2.0"), ("id", idv),
          ("result", Json.obj [("tools", TOOLS)])])
    ∧ route (Json.obj fields2)
      = Except.ok (Json.obj [("jsonrpc", Json.str "2.0"), ("id", idv2),
          ("result", Json.obj [("tools", TOOLS)])])
    ∧ toolNames TOOLS = [Json.str "calculate", Json.str "reverse_string"] := by
  have key : ∀ (fs : List (String × Json)) (i : Json),
      jlookup fs "method" = some (Json.str "tools/list") →
      jlookup fs "id" = some i →
      route (Json.obj fs)
        = Except.ok (Json.obj [("jsonrpc", Json.str "2.0"), ("id", i),
            ("result", Json.obj [("tools", TOOLS)])]) := by
    intro fs i hm hid
    unfold route
    rw [get_obj, pb_ok, hm]
    simp only [Option.getD]
    rw [if_neg (by decide), if_pos (by decide)]
    unfold handle_tools_list
    rw [item_some fs "id" i hid, pb_ok]
    rfl
  exact ⟨key fields idv hm1 hid1, key fields2 idv2 hm2 hid2, rfl⟩

/-- Witness for C8 at two concrete tools/list requests with ids 1 and
2: both results carry the same registry value. -/
theorem C8_tools_list_witness :
    route (Json.obj [("id", Json.num 1), ("method", Json.str "tools/list")])
      = Except.ok (Json.obj [("jsonrpc", Json.str "2.0"), ("id", Json.num 1),
          ("result", Json.obj [("tools", TOOLS)])])
    ∧ route (Json.obj [("id", Json.num 2), ("method", Json.str "tools/list")])
      = Except.ok (Json.obj [("jsonrpc", Json.str "2.0"), ("id", Json.num 2),
          ("result", Json.obj [("tools", TOOLS)])])
    ∧ toolNames TOOLS = [Json.str "calculate", Json.str "reverse_string"] :=
  C8_tools_list [("id", Json.num 1), ("method", Json.str "tools/list")]
    [("id", Json.num 2), ("method", Json.str "tools/list")]
    (Json.num 1) (Json.num 2) rfl rfl rfl rfl

/-- Counterexample to claim C6 as stated: a tools/call whose params and
name are absent, and which carries no id, gets no response rather than
the claimed -32601 error, because the unknown-tool branch reads the id
with item access and the KeyError escapes. -/
theorem C6_counterexample :
    route (Json.obj [("method", Json.str "tools/call")])
      = Except.error (PyErr.keyError "id")
    ∧ handle_message "\x7b\"method\": \"tools/call\"\x7d" = [] := by
  exact ⟨rfl, rfl⟩

/-- Claim C6 (corrected): for every tools/call request carrying an id
whose lenient name read yields a value that is neither registered tool
name, including the None of an absent name, the response is an error
with code -32601 whose message renders the requested tool; a tools/call
with no id field gets no response. The second conjunct checks the
concrete scenario with id 2 and name nope. -/
theorem C6_unknown_tool (fields : List (String × Json)) (idv t : Json)
    (hmethod : jlookup fields "method" = some (Json.str "tools/call"))
    (hid : jlookup fields "id" = some idv)
    (hname : toolCallName (Json.obj fields) = Except.ok t)
    (hc : Json.eqStr t "calculate" = false)
    (hr : Json.eqStr t "reverse_string" = false) :
    route (Json.obj fields)
      = Except.ok (mkError idv (-32601) ("Unknown tool: " ++ py_str t))
    ∧ handle_message "\x7b\"jsonrpc\":\"2.0\",\"id\":2,\"method\":\"tools/call\",\"params\":\x7b\"name\":\"nope\"\x7d\x7d"
      = [mkError (Json.num 2) (-32601) "Unknown tool: nope"] := by
  constructor
  · unfold route
    rw [get_obj, pb_ok, hmethod]
    simp only [Option.getD]
    rw [if_neg (by decide), if_neg (by decide), if_pos (by decide)]
    unfold handle_tool_call
    obtain ⟨a, ha⟩ := toolCallArguments_ok fields t hname
    rw [hname, pb_ok, ha, pb_ok, hc, hr]
    rw [if_neg Bool.false_ne_true, if_neg Bool.false_ne_true]
    rw [item_some fields "id" idv hid, pb_ok]
    rfl
  · rfl

/-- Witness for C6 at a tools/call with id 5 naming the unregistered
tool ghost. -/
theorem C6_unknown_tool_witness :
    route (Json.obj [("id", Json.num 5), ("method", Json.str "tools/call"),
        ("params", Json.obj [("name", Json.str "ghost")])])
      = Except.ok (mkError (Json.num 5) (-32601) "Unknown tool: ghost") :=
  (C6_unknown_tool
    [("id", Json.num 5), ("method", Json.str "tools/call"),
      ("params", Json.obj [("name", Json.str "ghost")])]
    (Json.num 5) (Json.str "ghost") rfl rfl rfl rfl rfl).1

/-- Claim C9 (confirmed): the core never checks tool-call arguments
against the declared schema. The registry declares text as required for
reverse_string, yet a call whose arguments dict lacks text succeeds with
the empty-string default and returns the empty reversal text, instead of
any validation error. -/
theorem C9_no_schema_validation
    (fields pfields afields : List (String × Json)) (idv : Json)
    (hmethod : jlookup fields "method" = some (Json.str "tools/call"))
    (hid : jlookup fields "id" = some idv)
    (hparams : jlookup fields "params" = some (Json.obj pfields))
    (hname : jlookup pfields "name" = some (Json.str "reverse_string"))
    (hargs : jlookup pfields "arguments" = some (Json.obj afields))
    (htext : jlookup afields "text" = none) :
    route (Json.obj fields)
      = Except.ok (mkResultText idv "Original: \x27\x27 -> Reversed: \x27\x27")
    ∧ declaredRequired "reverse_string" = some (Json.arr [Json.str "text"]) := by
  have h1 : toolCallName (Json.obj fields) = Except.ok (Json.str "reverse_string") := by
    unfold toolCallName
    rw [get_obj, pb_ok]
    simp only [hparams, Option.getD]
    rw [get_obj]
    simp only [hname, Option.getD]
  have h2 : toolCallArguments (Json.obj fields) = Except.ok (Json.obj afields) := by
    unfold toolCallArguments
    rw [get_obj, pb_ok]
    simp only [hparams, Option.getD]
    rw [get_obj]
    simp only [hargs, Option.getD]
  constructor
  · unfold route
    rw [get_obj, pb_ok, hmethod]
    simp only [Option.getD]
    rw [if_neg (by decide), if_neg (by decide), if_pos (by decide)]
    unfold handle_tool_call
    rw [h1, pb_ok, h2, pb_ok]
    rw [if_neg (by decide), if_pos (by decide)]
    rw [get_obj]
    simp only [htext, Option.getD]
    rw [pb_ok]
    rw [show py_slice_reverse (Json.str "") = Except.ok (Json.str "") from rfl, pb_ok]
    rw [item_some fields "id" idv hid, pb_ok]
    rfl
  · rfl

/-- Witness for C9: calling reverse_string with id 4 and an empty
arguments dict succeeds with the empty reversal. -/
theorem C9_no_schema_validation_witness :
    route (Json.obj [("id", Json.num 4), ("method", Json.str "tools/call"),
        ("params", Json.obj [("name", Json.str "reverse_string"),
          ("arguments", Json.obj [])])])
      = Except.ok (mkResultText (Json.num 4)
          "Original: \x27\x27 -> Reversed: \x27\x27") :=
  (C9_no_schema_validation
    [("id", Json.num 4), ("method", Json.str "tools/call"),
      ("params", Json.obj [("name", Json.str "reverse_string"),
        ("arguments", Json.obj [])])]
    [("name", Json.str "reverse_string"), ("arguments", Json.obj [])]
    [] (Json.num 4) rfl rfl rfl rfl rfl rfl).1

/-- Counterexample to claim C2 as stated: a tools/call naming the
registered tool reverse_string whose body faults, here because the text
argument is the non-sliceable number 5, is not caught inside the
tool-call handler and is not converted to a -32000 response; the
TypeError escapes the handler, the loop catch-all logs it, and no
response line is emitted. -/
theorem C2_counterexample :
    handle_tool_call (Json.obj [("jsonrpc", Json.str "2.0"), ("id", Json.num 7),
        ("method", Json.str "tools/call"),
        ("params", Json.obj [("name", Json.str "reverse_string"),
          ("arguments", Json.obj [("text", Json.num 5)])])])
      = Except.error (PyErr.typeError "\x27int\x27 object is not subscriptable")
    ∧ handle_message "\x7b\"jsonrpc\":\"2.0\",\"id\":7,\"method\":\"tools/call\",\"params\":\x7b\"name\":\"reverse_string\",\"arguments\":\x7b\"text\":5\x7d\x7d\x7d"
      = [] := by
  exact ⟨rfl, rfl⟩

/-- Claim C2 (corrected): only the calculate branch wraps its tool body
in a local try. For a tools/call naming calculate with an id, any fault
of the body, from reading the expression through evaluating it, is
caught locally and converted to an error response with code -32000
whose message appends the description of the fault. For reverse_string
a body fault escapes the tool-call handler and reaches the loop
catch-all, which logs it and emits no response, so the loop still never
crashes. -/
theorem C2_tool_faults (idv args t : Json) :
    (∀ expr e, Json.get args "expression" (Json.str "") = Except.ok expr →
      py_eval expr = Except.error e →
      handle_tool_call (mkToolCall idv "calculate" args)
        = Except.ok (mkError idv (-32000)
            ("Calculation error: " ++ e.toMessage)))
    ∧ (∀ e, py_slice_reverse t = Except.error e →
        handle_tool_call (mkToolCall idv "reverse_string" (Json.obj [("text", t)]))
          = Except.error e
        ∧ route (mkToolCall idv "reverse_string" (Json.obj [("text", t)]))
          = Except.error e) := by
  constructor
  · intro expr e hexpr heval
    have hn : toolCallName (mkToolCall idv "calculate" args)
        = Except.ok (Json.str "calculate") := rfl
    have hax : toolCallArguments (mkToolCall idv "calculate" args)
        = Except.ok args := rfl
    have hitem : Json.item (mkToolCall idv "calculate" args) "id"
        = Except.ok idv := rfl
    have hct : calcTry (mkToolCall idv "calculate" args) args
        = Except.error e := by
      unfold calcTry
      rw [hexpr, pb_ok, heval, pb_error]
    unfold handle_tool_call
    rw [hn, pb_ok, hax, pb_ok]
    rw [if_pos (by decide)]
    simp only [hct]
    rw [hitem, pb_ok]
    rfl
  · intro e hslice
    have hn : toolCallName (mkToolCall idv "reverse_string" (Json.obj [("text", t)]))
        = Except.ok (Json.str "reverse_string") := rfl
    have hax : toolCallArguments (mkToolCall idv "reverse_string" (Json.obj [("text", t)]))
        = Except.ok (Json.obj [("text", t)]) := rfl
    have htext : Json.get (Json.obj [("text", t)]) "text" (Json.str "")
        = Except.ok t := rfl
    have hcall : handle_tool_call
        (mkToolCall idv "reverse_string" (Json.obj [("text", t)]))
        = Except.error e := by
      unfold handle_tool_call
      rw [hn, pb_ok, hax, pb_ok]
      rw [if_neg (by decide), if_pos (by decide)]
      rw [htext, pb_ok, hslice, pb_error]
    refine ⟨hcall, ?_⟩
    have hm : Json.get (mkToolCall idv "reverse_string" (Json.obj [("text", t)]))
        "method" Json.null = Except.ok (Json.str "tools/call") := rfl
    unfold route
    rw [hm, pb_ok]
    rw [if_neg (by decide), if_neg (by decide), if_pos (by decide)]
    exact hcall

/-- Witness for C2: a calculate call with id 9 and the malformed
expression of a lone opening parenthesis yields the -32000 conversion,
and a reverse_string call with id 7 and numeric text raises a TypeError
that escapes the handler. -/
theorem C2_tool_faults_witness :
    handle_tool_call (mkToolCall (Json.num 9) "calculate"
        (Json.obj [("expression", Json.str "(")]))
      = Except.ok (mkError (Json.num 9) (-32000)
          "Calculation error: invalid syntax")
    ∧ handle_tool_call (mkToolCall (Json.num 7) "reverse_string"
        (Json.obj [("text", Json.num 5)]))
      = Except.error (PyErr.typeError "\x27int\x27 object is not subscriptable") := by
  have h := C2_tool_faults (Json.num 9)
    (Json.obj [("expression", Json.str "(")]) (Json.num 5)
  have h2 := C2_tool_faults (Json.num 7)
    (Json.obj [("expression", Json.str "(")]) (Json.num 5)
  exact ⟨h.1 (Json.str "(") (PyErr.syntaxError "invalid syntax") rfl rfl,
    (h2.2 (PyErr.typeError "\x27int\x27 object is not subscriptable") rfl).1⟩

/-- When the request dict has no id field, every branch of the
tools/call handler ends in or re-raises an exception, so the handler
never returns a response. -/
theorem tool_call_no_id (fields : List (String × Json))
    (hid : jlookup fields "id" = none) :
    ∃ e, handle_tool_call (Json.obj fields) = Except.error e := by
  have hitem : Json.item (Json.obj fields) "id"
      = Except.error (PyErr.keyError "id") := item_none fields "id" hid
  unfold handle_tool_call
  cases hn : toolCallName (Json.obj fields) with
  | error e => exact ⟨e, rfl⟩
  | ok t =>
    obtain ⟨a, ha⟩ := toolCallArguments_ok fields t hn
    rw [pb_ok, ha, pb_ok]
    by_cases hc : Json.eqStr t "calculate" = true
    · rw [if_pos hc]
      have hct : ∃ e2, calcTry (Json.obj fields) a = Except.error e2 := by
        unfold calcTry
        cases hg : Json.get a "expression" (Json.str "") with
        | error e2 => exact ⟨e2, rfl⟩
        | ok expr =>
          cases hev : py_eval expr with
          | error e2 => exact ⟨e2, by rw [pb_ok, hev, pb_error]⟩
          | ok r =>
            exact ⟨PyErr.keyError "id",
              by rw [pb_ok, hev, pb_ok, hitem, pb_error]⟩
      obtain ⟨e2, hct⟩ := hct
      refine ⟨PyErr.keyError "id", ?_⟩
      simp only [hct]
      rw [hitem, pb_error]
    · rw [if_neg hc]
      by_cases hr : Json.eqStr t "reverse_string" = true
      · rw [if_pos hr]
        cases hg : Json.get a "text" (Json.str "") with
        | error e2 => exact ⟨e2, rfl⟩
        | ok text =>
          cases hs : py_slice_reverse text with
          | error e2 => exact ⟨e2, by rw [pb_ok, hs, pb_error]⟩
          | ok rv =>
            exact ⟨PyErr.keyError "id",
              by rw [pb_ok, hs, pb_ok, hitem, pb_error]⟩
      · rw [if_neg hr]
        exact ⟨PyErr.keyError "id", by rw [hitem, pb_error]⟩

/-- Counterexample to claim C7 as stated: a routed tools/list request
with no id field is left unanswered, contradicting the claim that the
absent id is treated as null so that no case leaves the request
unanswered. -/
theorem C7_counterexample :
    route (Json.obj [("method", Json.str "tools/list")])
      = Except.error (PyErr.keyError "id")
    ∧ handle_message "\x7b\"method\": \"tools/list\"\x7d" = [] := by
  exact ⟨rfl, rfl⟩

/-- Claim C7 (corrected): an absent params is indeed treated as an
empty object by the tools/call reads, and an absent id is treated as
null on the unknown-method path, which still answers; but on the three
routed paths the handlers read the id with item access, so a routed
request with no id field raises KeyError and is left unanswered. -/
theorem C7_lenient_defaults (fields : List (String × Json)) :
    (jlookup fields "params" = none →
      toolCallName (Json.obj fields) = Except.ok Json.null
      ∧ toolCallArguments (Json.obj fields) = Except.ok (Json.obj []))
    ∧ (jlookup fields "id" = none →
        Json.eqStr ((jlookup fields "method").getD Json.null) "initialize" = false →
        Json.eqStr ((jlookup fields "method").getD Json.null) "tools/list" = false →
        Json.eqStr ((jlookup fields "method").getD Json.null) "tools/call" = false →
        route (Json.obj fields)
          = Except.ok (mkError Json.null (-32601)
              ("Method not found: "
                ++ py_str ((jlookup fields "method").getD Json.null))))
    ∧ (jlookup fields "id" = none →
        (jlookup fields "method" = some (Json.str "initialize")
          ∨ jlookup fields "method" = some (Json.str "tools/list")
          ∨ jlookup fields "method" = some (Json.str "tools/call")) →
        ∃ e, route (Json.obj fields) = Except.error e) := by
  refine ⟨?_, ?_, ?_⟩
  · intro hp
    constructor
    · unfold toolCallName
      rw [get_obj, pb_ok]
      simp only [hp, Option.getD]
      rfl
    · unfold toolCallArguments
      rw [get_obj, pb_ok]
      simp only [hp, Option.getD]
      rfl
  · intro hid h1 h2 h3
    unfold route
    rw [get_obj, pb_ok, h1, h2, h3]
    rw [get_obj, pb_ok]
    simp only [hid, Option.getD]
    rfl
  · intro hid hm
    rcases hm with hmi | hml | hmc
    · refine ⟨PyErr.keyError "id", ?_⟩
      unfold route
      rw [get_obj, pb_ok, hmi]
      simp only [Option.getD]
      rw [if_pos (by decide)]
      unfold handle_initialize
      rw [item_none fields "id" hid, pb_error]
    · refine ⟨PyErr.keyError "id", ?_⟩
      unfold route
      rw [get_obj, pb_ok, hml]
      simp only [Option.getD]
      rw [if_neg (by decide), if_pos (by decide)]
      unfold handle_tools_list
      rw [item_none fields "id" hid, pb_error]
    · obtain ⟨e, he⟩ := tool_call_no_id fields hid
      refine ⟨e, ?_⟩
      unfold route
      rw [get_obj, pb_ok, hmc]
      simp only [Option.getD]
      rw [if_neg (by decide), if_neg (by decide), if_pos (by decide)]
      exact he

/-- Witness for C7: with params absent the tools/call reads default to
None and an empty dict; an unknown method with no id is answered with a
null id; and a routed tools/call with no id raises instead of
answering. -/
theorem C7_lenient_defaults_witness :
    toolCallName (Json.obj [("method", Json.str "tools/call")])
      = Except.ok Json.null
    ∧ toolCallArguments (Json.obj [("method", Json.str "tools/call")])
      = Except.ok (Json.obj [])
    ∧ route (Json.obj [("method", Json.str "mystery")])
      = Except.ok (mkError Json.null (-32601) "Method not found: mystery")
    ∧ ∃ e, route (Json.obj [("method", Json.str "tools/call")])
        = Except.error e := by
  have h1 := C7_lenient_defaults [("method", Json.str "tools/call")]
  have h2 := C7_lenient_defaults [("method", Json.str "mystery")]
  exact ⟨(h1.1 rfl).1, (h1.1 rfl).2, h2.2.1 rfl rfl rfl rfl,
    h1.2.2 rfl (Or.inr (Or.inr rfl))⟩
